import Mathlib

/-!
Shallow embedding of the two scripts of the repository,
`convert_mp4_to_mp3.py` and `transcribir_mp3_vosk.py`.

The filesystem is explicit state; the external collaborators (the
network, the portable ffmpeg tool, the Vosk recognizer) are oracles
carried in a `World`.  Every embedded operation returns its result (an
`Except` models Python exceptions), the new world, and the ordered
list of observable effects it performed, so that claims about "zero
network calls", "exactly one download", or "no frame read" become
statements about the effect trace.
-/

abbrev FPath := String

/-- A filesystem: the set of existing regular files and of existing
directories, each as a list of slash-separated relative paths
(relative to the scripts' working directory). -/
structure FS where
  files : List FPath
  dirs : List FPath

/-- Observable effects performed by the scripts, in order. -/
inductive Effect where
  | log (msg : String)
  | mkdirp (path : FPath)
  | netGet (url : String) (dest : FPath)
  | extractZip (zipPath : FPath) (destDir : FPath)
  | runToolEff (cmd : List String)
  | writeFileEff (path : FPath) (content : String)
  | pipInstall (pkg : String)
  | readFrames (n : Nat)
  | acceptWaveform
deriving DecidableEq

/-- Python exceptions raised by the scripts. -/
inductive PyError where
  | fileNotFound (msg : String)
  | runtimeError (msg : String)
  | valueError (msg : String)
  | networkError (msg : String)
deriving DecidableEq

/-- `str(e)` as used in the scripts' log lines. -/
def PyError.msg : PyError → String
  | .fileNotFound m => m
  | .runtimeError m => m
  | .valueError m => m
  | .networkError m => m

/-- Outcome of one `subprocess.run` of the external tool: exit status,
captured stderr, and the files the tool created / removed. -/
structure ToolResult where
  returncode : Int
  stderr : String
  createdFiles : List FPath
  removedFiles : List FPath

/-- Header data and frames of a WAV file as exposed by `wave.open`. -/
structure WavFile where
  nchannels : Nat
  sampwidth : Nat
  framerate : Nat
  frames : List Nat

/-- The Vosk `KaldiRecognizer` as a deterministic oracle over an
abstract state (a `Nat`).  `accept s chunk` returns the new state and
`none` when `AcceptWaveform` returned false, `some r` when it returned
true with `r` the optional `text` field of the parsed `Result()`;
`final` is the optional `text` field of the parsed `FinalResult()`. -/
structure RecBehavior where
  init : Nat
  accept : Nat → List Nat → Nat × Option (Option String)
  final : Nat → Option String

/-- The world: filesystem plus oracles for every external collaborator. -/
structure World where
  fs : FS
  downloadOk : String → Bool
  zipFiles : FPath → List FPath
  zipDirs : FPath → List FPath
  tool : List String → ToolResult
  voskInstalled : Bool
  pipOk : Bool
  wavFiles : FPath → Option WavFile
  recog : RecBehavior

/-- Result of running one embedded operation. -/
structure RunRes (α : Type) where
  res : Except PyError α
  world : World
  trace : List Effect

/- ### FPath helpers (kernel-computable char-list implementations of
the pathlib / str operations the scripts use) -/

/-- Does the second list start with the first? -/
def leadsWith : List Char → List Char → Bool
  | [], _ => true
  | _ :: _, [] => false
  | a :: as, b :: bs => a = b && leadsWith as bs

/-- Drop leading whitespace characters. -/
def dropWs : List Char → List Char
  | [] => []
  | c :: cs => if c.isWhitespace then dropWs cs else c :: cs

/-- Python's `str.strip()`: remove leading and trailing whitespace. -/
def trimStr (s : String) : String :=
  ((dropWs ((dropWs s.toList).reverse)).reverse).asString

/-- Final path component, as characters. -/
def basenameL (p : FPath) : List Char :=
  (p.toList.reverse.takeWhile (fun c => c ≠ '/')).reverse

/-- Final path component (`Path.name` in `pathlib`). -/
def basename (p : FPath) : String := (basenameL p).asString

/-- The leading directory part of a path, trailing slash included. -/
def dirPartL (p : FPath) : List Char :=
  (p.toList.reverse.dropWhile (fun c => c ≠ '/')).reverse

/-- Is `p` strictly below directory `root`? -/
def isUnderDir (root : FPath) (p : FPath) : Bool :=
  leadsWith (root.toList ++ ['/']) p.toList

/-- `root.rglob(name)`: every existing file below `root` whose final
component is `name`, in filesystem order. -/
def rglobName (fs : FS) (root : FPath) (name : String) : List FPath :=
  fs.files.filter (fun p => isUnderDir root p && basenameL p == name.toList)

/-- Does directory `d` have any entry below it (`any(d.iterdir())`)? -/
def hasChild (fs : FS) (d : FPath) : Bool :=
  fs.files.any (fun p => isUnderDir d p) || fs.dirs.any (fun p => isUnderDir d p)

/-- Is `p` an immediate child of `parent`? -/
def isImmediateChild (parent : FPath) (p : FPath) : Bool :=
  isUnderDir parent p && !((p.toList.drop (parent.toList.length + 1)).any (fun c => c = '/'))

/-- Index of the last '.' in a component, scanning left to right. -/
def lastDotIdxAux : List Char → Nat → Option Nat → Option Nat
  | [], _, best => best
  | c :: rest, i, best => lastDotIdxAux rest (i + 1) (if c = '.' then some i else best)

/-- `Path.with_suffix("")` of `pathlib`: drop the final suffix of the
last component (a '.' at position 0 or at the very end is not a
suffix), keeping the rest of the path. -/
def withSuffixEmpty (p : FPath) : FPath :=
  let base := basenameL p
  let stem :=
    match lastDotIdxAux base 0 none with
    | some i => if 0 < i ∧ i + 1 < base.length then base.take i else base
    | none => base
  (dirPartL p ++ stem).asString

/-- `mkdir(parents=True, exist_ok=True)`. -/
def mkdirp (w : World) (d : FPath) : World :=
  { w with fs := { w.fs with dirs := if d ∈ w.fs.dirs then w.fs.dirs else d :: w.fs.dirs } }

/-- Record a written file in the filesystem. -/
def writeFileW (w : World) (p : FPath) : World :=
  { w with fs := { w.fs with files := p :: w.fs.files } }

/-- `zipfile.ZipFile(zipPath).extractall(destDir)`: materialise the
archive's files and directories under `destDir`. -/
def extractAllZip (w : World) (zipPath : FPath) (destDir : FPath) : World :=
  { w with fs :=
    { files := (w.zipFiles zipPath).map (fun rel => destDir ++ "/" ++ rel) ++ w.fs.files
      dirs := (w.zipDirs zipPath).map (fun rel => destDir ++ "/" ++ rel) ++ w.fs.dirs } }

/-- `subprocess.run(cmd, capture_output=True, text=True)` plus its
filesystem effect. -/
def applyTool (w : World) (cmd : List String) : ToolResult × World :=
  let r := w.tool cmd
  (r, { w with fs := { w.fs with
          files := r.createdFiles ++ w.fs.files.filter (fun p => !(r.removedFiles.contains p)) } })

/-- `download_file(url, dest)`: defined identically in both scripts.
The streamed GET happens first; `raise_for_status` may fail, otherwise
the body is written to `dest`. -/
def download_file (w : World) (url : String) (dest : FPath) : RunRes Unit :=
  let tr := [Effect.log ("Descargando: " ++ url), Effect.netGet url dest]
  if w.downloadOk url then
    { res := Except.ok ()
      world := { w with fs := { w.fs with files := dest :: w.fs.files } }
      trace := tr ++ [Effect.log ("Descargado en: " ++ dest)] }
  else
    { res := Except.error (PyError.networkError ("HTTPError al descargar " ++ url))
      world := w
      trace := tr }

/- ### Effect counting -/

def Effect.isNetGet : Effect → Bool
  | .netGet _ _ => true
  | _ => false

def Effect.isExtract : Effect → Bool
  | .extractZip _ _ => true
  | _ => false

def Effect.isRunTool : Effect → Bool
  | .runToolEff _ => true
  | _ => false

def Effect.isRead : Effect → Bool
  | .readFrames _ => true
  | _ => false

def Effect.isFeed : Effect → Bool
  | .acceptWaveform => true
  | _ => false

def countNetGets (tr : List Effect) : Nat := (tr.filter Effect.isNetGet).length

def countExtracts (tr : List Effect) : Nat := (tr.filter Effect.isExtract).length

def countRunTools (tr : List Effect) : Nat := (tr.filter Effect.isRunTool).length

namespace ConvertMp4ToMp3

/- Constants of `convert_mp4_to_mp3.py`, paths relative to `WORKDIR`. -/

def VIDEO_FILE : FPath :=
  "CUANTT - Sales Force - Sesión de Marketing, Comunicación y Cuidado Preventivo-20250811.mp4"

def TOOLS_DIR : FPath := "tools"

def FFMPEG_ROOT : FPath := "tools/ffmpeg"

def FFMPEG_ZIP : FPath := "tools/ffmpeg/ffmpeg-release-essentials.zip"

def FFMPEG_URL : String := "https://www.gyan.dev/ffmpeg/builds/ffmpeg-release-essentials.zip"

/-- `ensure_ffmpeg()` of `convert_mp4_to_mp3.py`: search
`FFMPEG_ROOT` for `ffmpeg.exe`; on a miss, download the archive unless
already cached, extract it, and search again. -/
def ensure_ffmpeg (w : World) : RunRes FPath :=
  match rglobName w.fs FFMPEG_ROOT "ffmpeg.exe" with
  | exe :: _ =>
    { res := Except.ok exe, world := w, trace := [Effect.log ("FFmpeg localizado: " ++ exe)] }
  | [] =>
    let dl : RunRes Unit :=
      if FFMPEG_ZIP ∈ w.fs.files then { res := Except.ok (), world := w, trace := [] }
      else download_file w FFMPEG_URL FFMPEG_ZIP
    match dl.res with
    | Except.error e => { res := Except.error e, world := dl.world, trace := dl.trace }
    | Except.ok _ =>
      let tr := dl.trace ++ [Effect.log "Extrayendo FFmpeg...", Effect.extractZip FFMPEG_ZIP FFMPEG_ROOT]
      let w2 := extractAllZip dl.world FFMPEG_ZIP FFMPEG_ROOT
      match rglobName w2.fs FFMPEG_ROOT "ffmpeg.exe" with
      | exe :: _ =>
        { res := Except.ok exe, world := w2, trace := tr ++ [Effect.log ("FFmpeg localizado: " ++ exe)] }
      | [] =>
        { res := Except.error (PyError.fileNotFound "No se pudo localizar ffmpeg.exe tras la extracción")
          world := w2, trace := tr }

/-- The declared output path: `input.with_suffix("")` plus `".mp3"`. -/
def outputMp3For (input_mp4 : FPath) : FPath :=
  withSuffixEmpty input_mp4 ++ ".mp3"

/-- The argument list built for ffmpeg (note the unconditional `-y`
overwrite flag). -/
def ffmpegCmdMp3 (ffmpeg_exe input_mp4 : FPath) : List String :=
  [ffmpeg_exe, "-y", "-i", input_mp4, "-vn", "-acodec", "libmp3lame", "-b:a", "192k",
   outputMp3For input_mp4]

/-- `convert_mp4_to_mp3(input_mp4, ffmpeg_exe)`: check the input
exists, run ffmpeg, fail on non-zero exit (logging stderr), fail when
the output file is missing afterwards, otherwise return the output. -/
def convert_mp4_to_mp3 (w : World) (input_mp4 ffmpeg_exe : FPath) : RunRes FPath :=
  if input_mp4 ∈ w.fs.files then
    let output_mp3 := outputMp3For input_mp4
    let cmd := ffmpegCmdMp3 ffmpeg_exe input_mp4
    let p := applyTool w cmd
    let tr := [Effect.log "Iniciando conversión MP4 -> MP3 (libmp3lame, 192 kbps)...",
               Effect.runToolEff cmd]
    if p.1.returncode ≠ 0 then
      { res := Except.error (PyError.runtimeError "Fallo la conversión con FFmpeg")
        world := p.2, trace := tr ++ [Effect.log (trimStr p.1.stderr)] }
    else if output_mp3 ∈ p.2.fs.files then
      { res := Except.ok output_mp3, world := p.2, trace := tr ++ [Effect.log "Conversión completada"] }
    else
      { res := Except.error (PyError.runtimeError "La conversión finalizó sin crear el archivo MP3")
        world := p.2, trace := tr }
  else
    { res := Except.error (PyError.fileNotFound ("No existe el archivo: " ++ input_mp4))
      world := w, trace := [] }

/-- `main()` of `convert_mp4_to_mp3.py`.  Every stage failure is
caught, logged and turns into a normal return. -/
def main (w : World) : RunRes Unit :=
  let tr0 := [Effect.log "Conversor MP4 a MP3 (FFmpeg portátil)"]
  if VIDEO_FILE ∈ w.fs.files then
    let w1 := mkdirp (mkdirp w TOOLS_DIR) FFMPEG_ROOT
    let tr1 := tr0 ++ [Effect.mkdirp TOOLS_DIR, Effect.mkdirp FFMPEG_ROOT]
    let ef := ensure_ffmpeg w1
    match ef.res with
    | Except.error e =>
      { res := Except.ok (), world := ef.world
        trace := tr1 ++ ef.trace ++ [Effect.log ("Error preparando FFmpeg: " ++ e.msg)] }
    | Except.ok ffmpeg_exe =>
      let cv := convert_mp4_to_mp3 ef.world VIDEO_FILE ffmpeg_exe
      match cv.res with
      | Except.error e =>
        { res := Except.ok (), world := cv.world
          trace := tr1 ++ ef.trace ++ cv.trace ++ [Effect.log ("Error en la conversión: " ++ e.msg)] }
      | Except.ok out =>
        { res := Except.ok (), world := cv.world
          trace := tr1 ++ ef.trace ++ cv.trace ++
            [Effect.log ("Archivo MP3 creado: " ++ out), Effect.log "Proceso finalizado"] }
  else
    { res := Except.ok (), world := w
      trace := tr0 ++
        [Effect.log ("No se encontró el archivo MP4 esperado: " ++ basename VIDEO_FILE),
         Effect.log "Coloca el MP4 en esta carpeta o renombra VIDEO_FILE en el script"] }

end ConvertMp4ToMp3

namespace TranscribirMp3Vosk

/- Constants of `transcribir_mp3_vosk.py`, paths relative to `WORKDIR`. -/

def VIDEO_STEM : String :=
  "CUANTT - Sales Force - Sesión de Marketing, Comunicación y Cuidado Preventivo-20250811"

def MP3_FILE : FPath := VIDEO_STEM ++ ".mp3"

def TOOLS_DIR : FPath := "tools"

def FFMPEG_ROOT : FPath := "tools/ffmpeg"

def MODELS_DIR : FPath := "models"

def VOSK_MODEL_NAME : String := "vosk-model-small-es-0.42"

def VOSK_MODEL_ZIP : FPath := MODELS_DIR ++ "/" ++ VOSK_MODEL_NAME ++ ".zip"

def VOSK_MODEL_DIR : FPath := MODELS_DIR ++ "/" ++ VOSK_MODEL_NAME

def WAV_FILE : FPath := VIDEO_STEM ++ "_16k_mono.wav"

def OUTPUT_FILE : FPath := VIDEO_STEM ++ "_transcripcion_vosk.txt"

def FFMPEG_URL : String := "https://www.gyan.dev/ffmpeg/builds/ffmpeg-release-essentials.zip"

def VOSK_URL : String := "https://alphacephei.com/vosk/models/" ++ VOSK_MODEL_NAME ++ ".zip"

/-- `ensure_ffmpeg()` of `transcribir_mp3_vosk.py` (same logic as the
first script's, with this script's log/error texts and a local
`zip_path` bound to the same location). -/
def ensure_ffmpeg (w : World) : RunRes FPath :=
  match rglobName w.fs FFMPEG_ROOT "ffmpeg.exe" with
  | exe :: _ =>
    { res := Except.ok exe, world := w, trace := [Effect.log ("FFmpeg localizado: " ++ exe)] }
  | [] =>
    let zip_path := FFMPEG_ROOT ++ "/ffmpeg-release-essentials.zip"
    let dl : RunRes Unit :=
      if zip_path ∈ w.fs.files then { res := Except.ok (), world := w, trace := [] }
      else download_file w FFMPEG_URL zip_path
    match dl.res with
    | Except.error e => { res := Except.error e, world := dl.world, trace := dl.trace }
    | Except.ok _ =>
      let tr := dl.trace ++ [Effect.log "Extrayendo FFmpeg...", Effect.extractZip zip_path FFMPEG_ROOT]
      let w2 := extractAllZip dl.world zip_path FFMPEG_ROOT
      match rglobName w2.fs FFMPEG_ROOT "ffmpeg.exe" with
      | exe :: _ =>
        { res := Except.ok exe, world := w2, trace := tr ++ [Effect.log ("FFmpeg localizado: " ++ exe)] }
      | [] =>
        { res := Except.error (PyError.fileNotFound "No se encontro ffmpeg.exe tras la extraccion")
          world := w2, trace := tr }

/-- The argument list built for ffmpeg by `convert_mp3_to_wav` (note
the unconditional `-y` flag and the mono / 16 kHz options). -/
def ffmpegCmdWav (ffmpeg_exe input_mp3 output_wav : FPath) : List String :=
  [ffmpeg_exe, "-y", "-i", input_mp3, "-ac", "1", "-ar", "16000", output_wav]

/-- `convert_mp3_to_wav(ffmpeg_exe, input_mp3, output_wav)`: check the
input exists; if the output WAV already exists, log and return without
running ffmpeg; otherwise run ffmpeg and fail on non-zero exit
(logging stderr).  The source performs no output-existence check after
a zero exit: it logs completion and returns. -/
def convert_mp3_to_wav (w : World) (ffmpeg_exe input_mp3 output_wav : FPath) : RunRes Unit :=
  if input_mp3 ∈ w.fs.files then
    if output_wav ∈ w.fs.files then
      { res := Except.ok (), world := w, trace := [Effect.log "WAV ya existe, se reutiliza"] }
    else
      let cmd := ffmpegCmdWav ffmpeg_exe input_mp3 output_wav
      let p := applyTool w cmd
      let tr := [Effect.log "Convirtiendo MP3 a WAV mono 16kHz...", Effect.runToolEff cmd]
      if p.1.returncode ≠ 0 then
        { res := Except.error (PyError.runtimeError "Fallo la conversion con FFmpeg")
          world := p.2, trace := tr ++ [Effect.log (trimStr p.1.stderr)] }
      else
        { res := Except.ok (), world := p.2, trace := tr ++ [Effect.log "Conversion completada"] }
  else
    { res := Except.error (PyError.fileNotFound ("No existe el MP3: " ++ input_mp3))
      world := w, trace := [] }

/-- `ensure_vosk_installed()`: import vosk, or pip-install it
(`check=True`, so a pip failure raises). -/
def ensure_vosk_installed (w : World) : RunRes Unit :=
  if w.voskInstalled then { res := Except.ok (), world := w, trace := [] }
  else
    let tr := [Effect.log "Instalando paquete vosk...", Effect.pipInstall "vosk"]
    if w.pipOk then { res := Except.ok (), world := w, trace := tr }
    else
      { res := Except.error (PyError.runtimeError "CalledProcessError: pip install vosk")
        world := w, trace := tr }

/-- The fallback scan of `ensure_vosk_model`: immediate
subdirectories of `MODELS_DIR` whose name starts with
`"vosk-model-small-es"`, in filesystem order. -/
def voskFallbackDirs (fs : FS) : List FPath :=
  fs.dirs.filter (fun d => isImmediateChild MODELS_DIR d &&
    leadsWith "vosk-model-small-es".toList (basenameL d))

/-- `ensure_vosk_model()`: cache hit when `VOSK_MODEL_DIR` exists and
is non-empty; otherwise download the archive unless cached, extract
into `MODELS_DIR`, return `VOSK_MODEL_DIR` if it now exists, else a
similarly named directory, else raise. -/
def ensure_vosk_model (w : World) : RunRes FPath :=
  if VOSK_MODEL_DIR ∈ w.fs.dirs ∧ hasChild w.fs VOSK_MODEL_DIR = true then
    { res := Except.ok VOSK_MODEL_DIR, world := w
      trace := [Effect.log ("Modelo Vosk listo: " ++ VOSK_MODEL_DIR)] }
  else
    let dl : RunRes Unit :=
      if VOSK_MODEL_ZIP ∈ w.fs.files then { res := Except.ok (), world := w, trace := [] }
      else download_file w VOSK_URL VOSK_MODEL_ZIP
    match dl.res with
    | Except.error e => { res := Except.error e, world := dl.world, trace := dl.trace }
    | Except.ok _ =>
      let tr := dl.trace ++ [Effect.log "Extrayendo modelo Vosk...",
                             Effect.extractZip VOSK_MODEL_ZIP MODELS_DIR]
      let w2 := extractAllZip dl.world VOSK_MODEL_ZIP MODELS_DIR
      if VOSK_MODEL_DIR ∈ w2.fs.dirs then
        { res := Except.ok VOSK_MODEL_DIR, world := w2, trace := tr }
      else
        match voskFallbackDirs w2.fs with
        | d :: _ => { res := Except.ok d, world := w2, trace := tr }
        | [] =>
          { res := Except.error
              (PyError.fileNotFound "No se encontro la carpeta del modelo Vosk tras la extraccion")
            world := w2, trace := tr }

/-- The `while True` read loop of `transcribe_with_vosk`: read 4000
frames; stop on an empty read; feed the chunk to the recognizer; when
`AcceptWaveform` returns true and the parsed result has a `text`
field, append that text.  Returns the final recognizer state, the
appended texts in order, and the effect trace of reads and feeds. -/
def voskLoop (rb : RecBehavior) (s : Nat) (rest : List Nat) : Nat × List String × List Effect :=
  match rest with
  | [] => (s, [], [Effect.readFrames 4000])
  | x :: xs =>
    let data := (x :: xs).take 4000
    let p := rb.accept s data
    let r := voskLoop rb p.1 ((x :: xs).drop 4000)
    (r.1,
     (match p.2 with
      | some (some t) => t :: r.2.1
      | _ => r.2.1),
     Effect.readFrames 4000 :: Effect.acceptWaveform :: r.2.2)
termination_by rest.length
decreasing_by simp; omega

/-- `transcribe_with_vosk(wav_path, model_dir)`: load the model, open
the WAV, validate mono / 16-bit / 16000 Hz before any read, run the
read loop, append the `FinalResult` text, and assemble the transcript:
`" ".join(x.strip() for x in results if x.strip()).strip()`. -/
def transcribe_with_vosk (w : World) (wav_path model_dir : FPath) : RunRes String :=
  let tr0 := [Effect.log "Cargando modelo Vosk (puede tardar)..."]
  match w.wavFiles wav_path with
  | none =>
    { res := Except.error (PyError.fileNotFound ("No existe el WAV: " ++ wav_path))
      world := w, trace := tr0 }
  | some wf =>
    if wf.nchannels ≠ 1 ∨ wf.sampwidth ≠ 2 ∨ wf.framerate ≠ 16000 then
      { res := Except.error (PyError.valueError "WAV debe ser mono 16-bit 16000Hz")
        world := w, trace := tr0 }
    else
      let r := voskLoop w.recog w.recog.init wf.frames
      let results :=
        match w.recog.final r.1 with
        | some t => r.2.1 ++ [t]
        | none => r.2.1
      { res := Except.ok
          ((String.intercalate " "
            ((results.filter (fun x => trimStr x != "")).map trimStr)) |> trimStr)
        world := w, trace := tr0 ++ r.2.2 }

/-- The transcript file content: two header lines, a blank line, the
transcript body and a final newline (the three `f.write` calls of
`main`). -/
def transcriptContent (text : String) : String :=
  "TRANSCRIPCION (Vosk - Espanol)\n" ++ "================================\n\n" ++ text ++ "\n"

/-- The final `try` block of `main` after `transcribe_with_vosk`
succeeded with `text`: warn when the text is empty, write the
transcript file, log where it was saved and how many characters. -/
def finishTranscription (w : World) (text : String) : RunRes Unit :=
  { res := Except.ok ()
    world := writeFileW w OUTPUT_FILE
    trace :=
      (if text = "" then [Effect.log "Aviso: No se obtuvo texto. Verifique la claridad del audio."]
       else []) ++
      [Effect.writeFileEff OUTPUT_FILE (transcriptContent text),
       Effect.log ("Transcripcion guardada: " ++ OUTPUT_FILE),
       Effect.log ("Caracteres: " ++ toString text.length),
       Effect.log "Proceso completado"] }

/-- `main()` of `transcribir_mp3_vosk.py`.  Every stage failure is
caught, logged and turns into a normal return. -/
def main (w : World) : RunRes Unit :=
  let tr0 := [Effect.log "Transcriptor offline Vosk - Espanol"]
  if MP3_FILE ∈ w.fs.files then
    let w1 := mkdirp (mkdirp w TOOLS_DIR) MODELS_DIR
    let tr1 := tr0 ++ [Effect.mkdirp TOOLS_DIR, Effect.mkdirp MODELS_DIR]
    let ef := ensure_ffmpeg w1
    match ef.res with
    | Except.error e =>
      { res := Except.ok (), world := ef.world
        trace := tr1 ++ ef.trace ++ [Effect.log ("Error preparando FFmpeg: " ++ e.msg)] }
    | Except.ok ffmpeg_exe =>
      let cv := convert_mp3_to_wav ef.world ffmpeg_exe MP3_FILE WAV_FILE
      match cv.res with
      | Except.error e =>
        { res := Except.ok (), world := cv.world
          trace := tr1 ++ ef.trace ++ cv.trace ++ [Effect.log ("Error de conversion: " ++ e.msg)] }
      | Except.ok _ =>
        let vi := ensure_vosk_installed cv.world
        match vi.res with
        | Except.error e =>
          { res := Except.ok (), world := vi.world
            trace := tr1 ++ ef.trace ++ cv.trace ++ vi.trace ++
              [Effect.log ("Error preparando Vosk: " ++ e.msg)] }
        | Except.ok _ =>
          let vm := ensure_vosk_model vi.world
          match vm.res with
          | Except.error e =>
            { res := Except.ok (), world := vm.world
              trace := tr1 ++ ef.trace ++ cv.trace ++ vi.trace ++ vm.trace ++
                [Effect.log ("Error preparando Vosk: " ++ e.msg)] }
          | Except.ok model_dir =>
            let tw := transcribe_with_vosk vm.world WAV_FILE model_dir
            match tw.res with
            | Except.error e =>
              { res := Except.ok (), world := tw.world
                trace := tr1 ++ ef.trace ++ cv.trace ++ vi.trace ++ vm.trace ++ tw.trace ++
                  [Effect.log ("Error durante la transcripcion: " ++ e.msg)] }
            | Except.ok text =>
              let fin := finishTranscription tw.world text
              { res := Except.ok (), world := fin.world
                trace := tr1 ++ ef.trace ++ cv.trace ++ vi.trace ++ vm.trace ++ tw.trace ++
                  fin.trace }
  else
    { res := Except.ok (), world := w
      trace := tr0 ++ [Effect.log ("No se encontro el MP3: " ++ MP3_FILE)] }

end TranscribirMp3Vosk

/- ### Spec-side definitions (written from the claims' words, to be
compared with the embedded code) -/

/-- Spec side: the audio split into successive fixed-size reads of
4000 frames. -/
def chunksOf4000 : List Nat → List (List Nat)
  | [] => []
  | x :: xs => ((x :: xs).take 4000) :: chunksOf4000 ((x :: xs).drop 4000)
termination_by l => l.length
decreasing_by simp; omega

/-- Spec side: feed one chunk to the recognizer; append the segment's
text exactly when the recognizer signals a segment boundary (and the
result carries a text field). -/
def specStep (rb : RecBehavior) (p : Nat × List String) (c : List Nat) : Nat × List String :=
  match rb.accept p.1 c with
  | (s', some (some t)) => (s', p.2 ++ [t])
  | (s', _) => (s', p.2)

/-- Spec side: the accumulated segments of a sequential pass over the
4000-frame chunks, with the recognizer's final flushed text appended
after all frames are consumed. -/
def specSegments (rb : RecBehavior) (frames : List Nat) : List String :=
  let p := (chunksOf4000 frames).foldl (specStep rb) (rb.init, [])
  match rb.final p.1 with
  | some t => p.2 ++ [t]
  | none => p.2

/-- Spec side: each segment stripped of leading/trailing whitespace,
the non-empty ones joined with single spaces, and the final string
stripped. -/
def specAssemble (segs : List String) : String :=
  trimStr (String.intercalate " " ((segs.map trimStr).filter (fun t => t != "")))

/- ### Helper lemmas -/


theorem trim_filter_map (l : List String) :
    (l.filter (fun x => trimStr x != "")).map trimStr
      = (l.map trimStr).filter (fun t => t != "") := by
  induction l with
  | nil => rfl
  | cons x xs ih =>
    cases hb : (trimStr x != "") <;> simp [List.filter, hb, ih]

/-- One unfolding step of the read loop on a non-empty frame list. -/
theorem voskLoop_cons (rb : RecBehavior) (s x : Nat) (xs : List Nat) (s' : Nat)
    (ev : Option (Option String)) (hq : rb.accept s ((x :: xs).take 4000) = (s', ev)) :
    TranscribirMp3Vosk.voskLoop rb s (x :: xs)
      = ((TranscribirMp3Vosk.voskLoop rb s' ((x :: xs).drop 4000)).1,
         (match ev with
          | some (some t) => t :: (TranscribirMp3Vosk.voskLoop rb s' ((x :: xs).drop 4000)).2.1
          | _ => (TranscribirMp3Vosk.voskLoop rb s' ((x :: xs).drop 4000)).2.1),
         Effect.readFrames 4000 :: Effect.acceptWaveform ::
           (TranscribirMp3Vosk.voskLoop rb s' ((x :: xs).drop 4000)).2.2) := by
  rcases ev with _ | (_ | t) <;>
    (conv_lhs => rw [TranscribirMp3Vosk.voskLoop]) <;> simp only [hq]

/-- One unfolding step of the spec-side chunking on a non-empty list. -/
theorem chunksOf4000_cons (x : Nat) (xs : List Nat) :
    chunksOf4000 (x :: xs) = (x :: xs).take 4000 :: chunksOf4000 ((x :: xs).drop 4000) := by
  conv_lhs => rw [chunksOf4000]

theorem filter_isRead_cons2 (l : List Effect) :
    (Effect.readFrames 4000 :: Effect.acceptWaveform :: l).filter Effect.isRead
      = Effect.readFrames 4000 :: l.filter Effect.isRead := by
  simp [List.filter, Effect.isRead]

/-- The embedded read loop is the spec-side fold over the 4000-frame
chunks, and its trace holds one `readFrames 4000` per chunk plus the
final empty read. -/
theorem voskLoop_foldl (rb : RecBehavior) :
    ∀ (n : Nat) (rest : List Nat), rest.length ≤ n → ∀ (s : Nat) (acc : List String),
      (chunksOf4000 rest).foldl (specStep rb) (s, acc)
          = ((TranscribirMp3Vosk.voskLoop rb s rest).1,
             acc ++ (TranscribirMp3Vosk.voskLoop rb s rest).2.1) ∧
        (TranscribirMp3Vosk.voskLoop rb s rest).2.2.filter Effect.isRead
          = List.replicate ((chunksOf4000 rest).length + 1) (Effect.readFrames 4000) := by
  intro n
  induction n with
  | zero =>
    intro rest h s acc
    match rest with
    | [] => simp [TranscribirMp3Vosk.voskLoop, chunksOf4000, List.filter, Effect.isRead]
    | x :: xs => simp at h
  | succ n ih =>
    intro rest h s acc
    match rest with
    | [] => simp [TranscribirMp3Vosk.voskLoop, chunksOf4000, List.filter, Effect.isRead]
    | x :: xs =>
      have hlen : ((x :: xs).drop 4000).length ≤ n := by
        simp only [List.length_drop, List.length_cons] at *
        omega
      rcases hq : rb.accept s ((x :: xs).take 4000) with ⟨s', ev⟩
      have hrec := ih ((x :: xs).drop 4000) hlen
      rw [voskLoop_cons rb s x xs s' ev hq, chunksOf4000_cons]
      match ev with
      | none =>
        refine ⟨?_, ?_⟩
        · simp only [List.foldl_cons, specStep, hq]
          exact (hrec s' acc).1
        · rw [filter_isRead_cons2, List.length_cons, List.replicate_succ, (hrec s' acc).2]
      | some none =>
        refine ⟨?_, ?_⟩
        · simp only [List.foldl_cons, specStep, hq]
          exact (hrec s' acc).1
        · rw [filter_isRead_cons2, List.length_cons, List.replicate_succ, (hrec s' acc).2]
      | some (some t) =>
        refine ⟨?_, ?_⟩
        · simp only [List.foldl_cons, specStep, hq]
          rw [(hrec s' (acc ++ [t])).1]
          simp [List.append_assoc]
        · rw [filter_isRead_cons2, List.length_cons, List.replicate_succ,
              (hrec s' (acc ++ [t])).2]

/- ### Concrete worlds used as witnesses -/

/-- A recognizer that never emits a segment. -/
def quietRec : RecBehavior :=
  { init := 0, accept := fun s _ => (s, none), final := fun _ => none }

/-- A world with an empty filesystem and benign oracles. -/
def baseWorld : World :=
  { fs := { files := [], dirs := [] }
    downloadOk := fun _ => true
    zipFiles := fun _ => []
    zipDirs := fun _ => []
    tool := fun _ => { returncode := 0, stderr := "", createdFiles := [], removedFiles := [] }
    voskInstalled := true
    pipOk := true
    wavFiles := fun _ => none
    recog := quietRec }

/- ### Claim theorems -/

/-- Claim C9: for every run of either script, main returns normally
(so the process exits with status zero): every stage failure —
missing input, provisioning error, conversion error, transcription
error — is caught inside `main`, reported only as a log line, and
turns into a normal `ok ()` return. -/
theorem mains_always_return_ok (w : World) :
    (ConvertMp4ToMp3.main w).res = Except.ok () ∧
    (TranscribirMp3Vosk.main w).res = Except.ok () := by
  constructor
  · simp only [ConvertMp4ToMp3.main]
    repeat' split
    all_goals rfl
  · simp only [TranscribirMp3Vosk.main]
    repeat' split
    all_goals rfl

/-- Claim C10: when the hardcoded input media file is missing, each
script logs and returns at once: the world (hence the filesystem,
including the cache directories of the first script) is unchanged and
the trace holds nothing but the log lines. -/
theorem missing_input_short_circuit (w : World) :
    (ConvertMp4ToMp3.VIDEO_FILE ∉ w.fs.files →
      (ConvertMp4ToMp3.main w).res = Except.ok () ∧
      (ConvertMp4ToMp3.main w).world = w ∧
      (ConvertMp4ToMp3.main w).trace =
        [Effect.log "Conversor MP4 a MP3 (FFmpeg portátil)",
         Effect.log ("No se encontró el archivo MP4 esperado: " ++
           basename ConvertMp4ToMp3.VIDEO_FILE),
         Effect.log "Coloca el MP4 en esta carpeta o renombra VIDEO_FILE en el script"]) ∧
    (TranscribirMp3Vosk.MP3_FILE ∉ w.fs.files →
      (TranscribirMp3Vosk.main w).res = Except.ok () ∧
      (TranscribirMp3Vosk.main w).world = w ∧
      (TranscribirMp3Vosk.main w).trace =
        [Effect.log "Transcriptor offline Vosk - Espanol",
         Effect.log ("No se encontro el MP3: " ++ TranscribirMp3Vosk.MP3_FILE)]) := by
  constructor
  · intro h
    simp [ConvertMp4ToMp3.main, h]
  · intro h
    simp [TranscribirMp3Vosk.main, h]

/-- Witness for C10 at the empty filesystem. -/
theorem missing_input_short_circuit_witness :
    ConvertMp4ToMp3.VIDEO_FILE ∉ baseWorld.fs.files ∧
    TranscribirMp3Vosk.MP3_FILE ∉ baseWorld.fs.files ∧
    (ConvertMp4ToMp3.main baseWorld).world = baseWorld ∧
    (TranscribirMp3Vosk.main baseWorld).world = baseWorld := by
  have h := missing_input_short_circuit baseWorld
  exact ⟨by simp [baseWorld], by simp [baseWorld],
    (h.1 (by simp [baseWorld])).2.1, (h.2 (by simp [baseWorld])).2.1⟩

/-- Claim C4: with the input present, the MP3→WAV stage returns `ok`
without invoking the external tool when the target WAV already exists,
while the MP4→MP3 stage always invokes the tool — whose command line
carries the `-y` overwrite flag — regardless of the filesystem state
(in particular even when the output MP3 already exists). -/
theorem wav_skips_mp4_always_reconverts (w : World) (ffmpeg_exe input_mp3 output_wav input_mp4 : FPath) :
    (input_mp3 ∈ w.fs.files → output_wav ∈ w.fs.files →
      (TranscribirMp3Vosk.convert_mp3_to_wav w ffmpeg_exe input_mp3 output_wav).res = Except.ok () ∧
      (TranscribirMp3Vosk.convert_mp3_to_wav w ffmpeg_exe input_mp3 output_wav).trace
        = [Effect.log "WAV ya existe, se reutiliza"] ∧
      countRunTools (TranscribirMp3Vosk.convert_mp3_to_wav w ffmpeg_exe input_mp3 output_wav).trace = 0) ∧
    (input_mp4 ∈ w.fs.files →
      Effect.runToolEff (ConvertMp4ToMp3.ffmpegCmdMp3 ffmpeg_exe input_mp4)
        ∈ (ConvertMp4ToMp3.convert_mp4_to_mp3 w input_mp4 ffmpeg_exe).trace ∧
      "-y" ∈ ConvertMp4ToMp3.ffmpegCmdMp3 ffmpeg_exe input_mp4) := by
  constructor
  · intro h1 h2
    simp [TranscribirMp3Vosk.convert_mp3_to_wav, h1, h2, countRunTools, Effect.isRunTool]
  · intro h
    constructor
    · simp only [ConvertMp4ToMp3.convert_mp4_to_mp3, if_pos h]
      split <;> (try split) <;> simp
    · simp [ConvertMp4ToMp3.ffmpegCmdMp3]

/-- Witness for C4: a world where the MP3, the WAV and the MP4 all
already exist. -/
theorem wav_skips_mp4_always_reconverts_witness :
    (("in.mp3" : FPath)
        ∈ ({ baseWorld with fs := { files := ["in.mp3", "out.wav", "in.mp4"], dirs := [] } } : World).fs.files ∧
     ("out.wav" : FPath)
        ∈ ({ baseWorld with fs := { files := ["in.mp3", "out.wav", "in.mp4"], dirs := [] } } : World).fs.files) ∧
    (TranscribirMp3Vosk.convert_mp3_to_wav
        { baseWorld with fs := { files := ["in.mp3", "out.wav", "in.mp4"], dirs := [] } }
        "f.exe" "in.mp3" "out.wav").res = Except.ok () ∧
    Effect.runToolEff (ConvertMp4ToMp3.ffmpegCmdMp3 "f.exe" "in.mp4")
      ∈ (ConvertMp4ToMp3.convert_mp4_to_mp3
          { baseWorld with fs := { files := ["in.mp3", "out.wav", "in.mp4"], dirs := [] } }
          "in.mp4" "f.exe").trace := by
  have h := wav_skips_mp4_always_reconverts
    { baseWorld with fs := { files := ["in.mp3", "out.wav", "in.mp4"], dirs := [] } }
    "f.exe" "in.mp3" "out.wav" "in.mp4"
  exact ⟨⟨by simp, by simp⟩, (h.1 (by simp) (by simp)).1, (h.2 (by simp)).1⟩

/-- Claim C6: in either script, a non-zero tool exit makes the
converter log the captured stderr and raise the "conversion failed"
error; for the MP4→MP3 stage no assumption on the output file is
needed, so a stale output from a prior run cannot turn the outcome
into success (the MP3→WAV stage only reaches the tool when the target
WAV does not already exist). -/
theorem nonzero_exit_always_fails (w : World) (ffmpeg_exe input_mp4 input_mp3 output_wav : FPath) :
    (input_mp4 ∈ w.fs.files →
     (w.tool (ConvertMp4ToMp3.ffmpegCmdMp3 ffmpeg_exe input_mp4)).returncode ≠ 0 →
      (ConvertMp4ToMp3.convert_mp4_to_mp3 w input_mp4 ffmpeg_exe).res
        = Except.error (PyError.runtimeError "Fallo la conversión con FFmpeg") ∧
      Effect.log (trimStr (w.tool (ConvertMp4ToMp3.ffmpegCmdMp3 ffmpeg_exe input_mp4)).stderr)
        ∈ (ConvertMp4ToMp3.convert_mp4_to_mp3 w input_mp4 ffmpeg_exe).trace) ∧
    (input_mp3 ∈ w.fs.files → output_wav ∉ w.fs.files →
     (w.tool (TranscribirMp3Vosk.ffmpegCmdWav ffmpeg_exe input_mp3 output_wav)).returncode ≠ 0 →
      (TranscribirMp3Vosk.convert_mp3_to_wav w ffmpeg_exe input_mp3 output_wav).res
        = Except.error (PyError.runtimeError "Fallo la conversion con FFmpeg") ∧
      Effect.log (trimStr (w.tool (TranscribirMp3Vosk.ffmpegCmdWav ffmpeg_exe input_mp3 output_wav)).stderr)
        ∈ (TranscribirMp3Vosk.convert_mp3_to_wav w ffmpeg_exe input_mp3 output_wav).trace) := by
  constructor
  · intro h hrc
    simp [ConvertMp4ToMp3.convert_mp4_to_mp3, h, applyTool, hrc]
  · intro h1 h2 hrc
    simp [TranscribirMp3Vosk.convert_mp3_to_wav, h1, h2, applyTool, hrc]

/-- A world whose tool always exits 1 with some stderr, leaving the
filesystem alone; the stale output `out.mp3` of a prior run exists. -/
def failingToolWorld : World :=
  { baseWorld with
    fs := { files := ["in.mp4", "out.mp3", "in.mp3"], dirs := [] }
    tool := fun _ => { returncode := 1, stderr := " boom ", createdFiles := [], removedFiles := [] } }

/-- Witness for C6 at a failing tool, with a stale output present. -/
theorem nonzero_exit_always_fails_witness :
    (("in.mp4" : FPath) ∈ failingToolWorld.fs.files ∧
     (failingToolWorld.tool (ConvertMp4ToMp3.ffmpegCmdMp3 "f.exe" "in.mp4")).returncode ≠ 0) ∧
    (ConvertMp4ToMp3.convert_mp4_to_mp3 failingToolWorld "in.mp4" "f.exe").res
      = Except.error (PyError.runtimeError "Fallo la conversión con FFmpeg") ∧
    (TranscribirMp3Vosk.convert_mp3_to_wav failingToolWorld "f.exe" "in.mp3" "out.wav").res
      = Except.error (PyError.runtimeError "Fallo la conversion con FFmpeg") := by
  have h := nonzero_exit_always_fails failingToolWorld "f.exe" "in.mp4" "in.mp3" "out.wav"
  refine ⟨⟨by simp [failingToolWorld], by simp [failingToolWorld]⟩, ?_, ?_⟩
  · exact (h.1 (by simp [failingToolWorld]) (by simp [failingToolWorld])).1
  · exact (h.2 (by simp [failingToolWorld]) (by simp [failingToolWorld])
      (by simp [failingToolWorld])).1

/-- Claim C1 (amended): the zero-exit / missing-output defensive check
exists only in the MP4→MP3 stage, which raises the distinct "no output
produced" error; the MP3→WAV stage performs no such check and reports
success after a zero exit even when the declared output WAV does not
exist. -/
theorem silent_failure_check_only_in_mp4_stage
    (w : World) (ffmpeg_exe input_mp4 input_mp3 output_wav : FPath) :
    (input_mp4 ∈ w.fs.files →
     (w.tool (ConvertMp4ToMp3.ffmpegCmdMp3 ffmpeg_exe input_mp4)).returncode = 0 →
     ConvertMp4ToMp3.outputMp3For input_mp4
        ∉ (applyTool w (ConvertMp4ToMp3.ffmpegCmdMp3 ffmpeg_exe input_mp4)).2.fs.files →
      (ConvertMp4ToMp3.convert_mp4_to_mp3 w input_mp4 ffmpeg_exe).res
        = Except.error (PyError.runtimeError "La conversión finalizó sin crear el archivo MP3")) ∧
    PyError.runtimeError "La conversión finalizó sin crear el archivo MP3"
        ≠ PyError.runtimeError "Fallo la conversión con FFmpeg" ∧
    (input_mp3 ∈ w.fs.files → output_wav ∉ w.fs.files →
     (w.tool (TranscribirMp3Vosk.ffmpegCmdWav ffmpeg_exe input_mp3 output_wav)).returncode = 0 →
      (TranscribirMp3Vosk.convert_mp3_to_wav w ffmpeg_exe input_mp3 output_wav).res
        = Except.ok ()) := by
  refine ⟨?_, by decide, ?_⟩
  · intro h hrc hout
    have hrc' : ¬ ((applyTool w (ConvertMp4ToMp3.ffmpegCmdMp3 ffmpeg_exe input_mp4)).1.returncode ≠ 0) := by
      simp [applyTool, hrc]
    simp only [ConvertMp4ToMp3.convert_mp4_to_mp3, if_pos h, if_neg hrc', if_neg hout]
  · intro h1 h2 hrc
    simp [TranscribirMp3Vosk.convert_mp3_to_wav, h1, h2, applyTool, hrc]

/-- A world whose tool exits 0 without creating any file, with only
the input MP3 present. -/
def silentToolWorld : World :=
  { baseWorld with fs := { files := ["in.mp3"], dirs := [] } }

/-- Counterexample to claim C1 as stated: in the MP3→WAV stage the
external tool exits 0, the declared output `out.wav` does not exist
afterwards, and yet the invoker reports success (`ok ()`) instead of
failing with a "no output produced" error. -/
theorem mp3_to_wav_silent_failure_reports_success :
    (TranscribirMp3Vosk.convert_mp3_to_wav silentToolWorld "f.exe" "in.mp3" "out.wav").res
        = Except.ok () ∧
    (silentToolWorld.tool (TranscribirMp3Vosk.ffmpegCmdWav "f.exe" "in.mp3" "out.wav")).returncode
        = 0 ∧
    ("out.wav" : FPath)
        ∉ (TranscribirMp3Vosk.convert_mp3_to_wav silentToolWorld "f.exe" "in.mp3" "out.wav").world.fs.files := by
  refine ⟨rfl, rfl, ?_⟩
  simp [TranscribirMp3Vosk.convert_mp3_to_wav, silentToolWorld, baseWorld, applyTool,
    TranscribirMp3Vosk.ffmpegCmdWav]

/-- Witness for the amended C1: a silently failing tool makes the
MP4→MP3 stage raise the distinct "no output produced" error. -/
theorem silent_failure_check_only_in_mp4_stage_witness :
    (("in.mp4" : FPath) ∈ ({ baseWorld with fs := { files := ["in.mp4"], dirs := [] } } : World).fs.files) ∧
    (ConvertMp4ToMp3.convert_mp4_to_mp3
        { baseWorld with fs := { files := ["in.mp4"], dirs := [] } } "in.mp4" "f.exe").res
      = Except.error (PyError.runtimeError "La conversión finalizó sin crear el archivo MP3") := by
  have h := silent_failure_check_only_in_mp4_stage
    { baseWorld with fs := { files := ["in.mp4"], dirs := [] } } "f.exe" "in.mp4" "in.mp3" "out.wav"
  refine ⟨by simp, h.1 (by simp) rfl (by decide)⟩

/-- Claim C5: a WAV whose channel count is not 1, sample width not 2,
or sample rate not 16000 makes `transcribe_with_vosk` raise the format
validation error, with a trace holding only the model-load log line —
in particular no `readFrames` and no `acceptWaveform` effect, so no
frame is read or fed to the recognizer. -/
theorem format_mismatch_fails_before_any_read
    (w : World) (wav_path model_dir : FPath) (wf : WavFile) :
    w.wavFiles wav_path = some wf →
    (wf.nchannels ≠ 1 ∨ wf.sampwidth ≠ 2 ∨ wf.framerate ≠ 16000) →
    (TranscribirMp3Vosk.transcribe_with_vosk w wav_path model_dir).res
        = Except.error (PyError.valueError "WAV debe ser mono 16-bit 16000Hz") ∧
    (TranscribirMp3Vosk.transcribe_with_vosk w wav_path model_dir).trace
        = [Effect.log "Cargando modelo Vosk (puede tardar)..."] := by
  intro hw hbad
  simp only [TranscribirMp3Vosk.transcribe_with_vosk, hw]
  rw [if_pos hbad]
  exact ⟨rfl, rfl⟩

/-- A world holding a stereo (2-channel) WAV with nonempty frames. -/
def stereoWavWorld : World :=
  { baseWorld with
    wavFiles := fun p => if p = "st.wav" then
      some { nchannels := 2, sampwidth := 2, framerate := 16000, frames := [7, 7, 7] }
      else none }

/-- Witness for C5 at a concrete stereo WAV. -/
theorem format_mismatch_fails_before_any_read_witness :
    stereoWavWorld.wavFiles "st.wav"
        = some { nchannels := 2, sampwidth := 2, framerate := 16000, frames := [7, 7, 7] } ∧
    (TranscribirMp3Vosk.transcribe_with_vosk stereoWavWorld "st.wav" "model").res
        = Except.error (PyError.valueError "WAV debe ser mono 16-bit 16000Hz") ∧
    (TranscribirMp3Vosk.transcribe_with_vosk stereoWavWorld "st.wav" "model").trace
        = [Effect.log "Cargando modelo Vosk (puede tardar)..."] := by
  have h := format_mismatch_fails_before_any_read stereoWavWorld "st.wav" "model"
    { nchannels := 2, sampwidth := 2, framerate := 16000, frames := [7, 7, 7] }
    (by simp [stereoWavWorld]) (by simp)
  exact ⟨by simp [stereoWavWorld], h.1, h.2⟩

/-- Claim C2: when the expected artifact is already present — some
`ffmpeg.exe` under `tools/ffmpeg`, or a non-empty Vosk model directory
under `models` — the provisioner performs zero network calls, leaves
the world untouched and returns the existing artifact's path. -/
theorem provisioner_cache_hit_no_download (w : World) (exe : FPath) (rest : List FPath) :
    (rglobName w.fs ConvertMp4ToMp3.FFMPEG_ROOT "ffmpeg.exe" = exe :: rest →
      (ConvertMp4ToMp3.ensure_ffmpeg w).res = Except.ok exe ∧
      countNetGets (ConvertMp4ToMp3.ensure_ffmpeg w).trace = 0 ∧
      (ConvertMp4ToMp3.ensure_ffmpeg w).world = w) ∧
    (TranscribirMp3Vosk.VOSK_MODEL_DIR ∈ w.fs.dirs ∧
        hasChild w.fs TranscribirMp3Vosk.VOSK_MODEL_DIR = true →
      (TranscribirMp3Vosk.ensure_vosk_model w).res = Except.ok TranscribirMp3Vosk.VOSK_MODEL_DIR ∧
      countNetGets (TranscribirMp3Vosk.ensure_vosk_model w).trace = 0 ∧
      (TranscribirMp3Vosk.ensure_vosk_model w).world = w) := by
  constructor
  · intro h
    simp [ConvertMp4ToMp3.ensure_ffmpeg, h, countNetGets, Effect.isNetGet]
  · intro h
    simp [TranscribirMp3Vosk.ensure_vosk_model, h, countNetGets, Effect.isNetGet]

/-- A world where both artifacts are already provisioned: an
`ffmpeg.exe` below `tools/ffmpeg` and a non-empty Vosk model folder
below `models`. -/
def provisionedWorld : World :=
  { baseWorld with
    fs := { files := ["tools/ffmpeg/bin/ffmpeg.exe",
                      "models/vosk-model-small-es-0.42/am/final.mdl"]
            dirs := ["tools", "tools/ffmpeg", "models", "models/vosk-model-small-es-0.42"] } }

/-- Witness for C2 at a fully provisioned world. -/
theorem provisioner_cache_hit_no_download_witness :
    rglobName provisionedWorld.fs ConvertMp4ToMp3.FFMPEG_ROOT "ffmpeg.exe"
        = ["tools/ffmpeg/bin/ffmpeg.exe"] ∧
    (TranscribirMp3Vosk.VOSK_MODEL_DIR ∈ provisionedWorld.fs.dirs ∧
      hasChild provisionedWorld.fs TranscribirMp3Vosk.VOSK_MODEL_DIR = true) ∧
    (ConvertMp4ToMp3.ensure_ffmpeg provisionedWorld).res
        = Except.ok "tools/ffmpeg/bin/ffmpeg.exe" ∧
    countNetGets (ConvertMp4ToMp3.ensure_ffmpeg provisionedWorld).trace = 0 ∧
    (TranscribirMp3Vosk.ensure_vosk_model provisionedWorld).res
        = Except.ok TranscribirMp3Vosk.VOSK_MODEL_DIR ∧
    countNetGets (TranscribirMp3Vosk.ensure_vosk_model provisionedWorld).trace = 0 := by
  have h := provisioner_cache_hit_no_download provisionedWorld "tools/ffmpeg/bin/ffmpeg.exe" []
  have h1 := h.1 (by decide)
  have h2 := h.2 (by decide)
  exact ⟨by decide, by decide, h1.1, h1.2.1, h2.1, h2.2.1⟩

/-- Claim C3: on a cache miss (and a network that lets the single
download through), the provisioner downloads exactly once — zero times
when the archive file is already on disk — extracts exactly once,
re-searches, and, when the artifact still cannot be located in the
post-extraction filesystem, fails with the missing-artifact error
(never an `ok` with an empty path). -/
theorem provisioner_cache_miss_one_download (w : World) :
    (rglobName w.fs ConvertMp4ToMp3.FFMPEG_ROOT "ffmpeg.exe" = [] →
     (ConvertMp4ToMp3.FFMPEG_ZIP ∈ w.fs.files ∨ w.downloadOk ConvertMp4ToMp3.FFMPEG_URL = true) →
      countNetGets (ConvertMp4ToMp3.ensure_ffmpeg w).trace
          = (if ConvertMp4ToMp3.FFMPEG_ZIP ∈ w.fs.files then 0 else 1) ∧
      countExtracts (ConvertMp4ToMp3.ensure_ffmpeg w).trace = 1 ∧
      (rglobName (ConvertMp4ToMp3.ensure_ffmpeg w).world.fs
          ConvertMp4ToMp3.FFMPEG_ROOT "ffmpeg.exe" = [] →
        (ConvertMp4ToMp3.ensure_ffmpeg w).res
          = Except.error (PyError.fileNotFound "No se pudo localizar ffmpeg.exe tras la extracción"))) ∧
    (¬(TranscribirMp3Vosk.VOSK_MODEL_DIR ∈ w.fs.dirs ∧
         hasChild w.fs TranscribirMp3Vosk.VOSK_MODEL_DIR = true) →
     (TranscribirMp3Vosk.VOSK_MODEL_ZIP ∈ w.fs.files ∨
        w.downloadOk TranscribirMp3Vosk.VOSK_URL = true) →
      countNetGets (TranscribirMp3Vosk.ensure_vosk_model w).trace
          = (if TranscribirMp3Vosk.VOSK_MODEL_ZIP ∈ w.fs.files then 0 else 1) ∧
      countExtracts (TranscribirMp3Vosk.ensure_vosk_model w).trace = 1 ∧
      ((TranscribirMp3Vosk.VOSK_MODEL_DIR ∉ (TranscribirMp3Vosk.ensure_vosk_model w).world.fs.dirs ∧
        TranscribirMp3Vosk.voskFallbackDirs (TranscribirMp3Vosk.ensure_vosk_model w).world.fs = []) →
        (TranscribirMp3Vosk.ensure_vosk_model w).res
          = Except.error
              (PyError.fileNotFound "No se encontro la carpeta del modelo Vosk tras la extraccion"))) := by
  constructor
  · intro h hdl
    by_cases hzip : ConvertMp4ToMp3.FFMPEG_ZIP ∈ w.fs.files
    · simp only [ConvertMp4ToMp3.ensure_ffmpeg, h, if_pos hzip]
      cases h2 : rglobName (extractAllZip w ConvertMp4ToMp3.FFMPEG_ZIP
          ConvertMp4ToMp3.FFMPEG_ROOT).fs ConvertMp4ToMp3.FFMPEG_ROOT "ffmpeg.exe" with
      | nil =>
        simp [h2, countNetGets, countExtracts, Effect.isNetGet, Effect.isExtract, hzip]
      | cons e es =>
        simp [h2, countNetGets, countExtracts, Effect.isNetGet, Effect.isExtract, hzip]
    · have hok : w.downloadOk ConvertMp4ToMp3.FFMPEG_URL = true := hdl.resolve_left hzip
      simp only [ConvertMp4ToMp3.ensure_ffmpeg, h, if_neg hzip, download_file, if_pos hok]
      cases h2 : rglobName (extractAllZip
          { w with fs := { w.fs with files := ConvertMp4ToMp3.FFMPEG_ZIP :: w.fs.files } }
          ConvertMp4ToMp3.FFMPEG_ZIP ConvertMp4ToMp3.FFMPEG_ROOT).fs
          ConvertMp4ToMp3.FFMPEG_ROOT "ffmpeg.exe" with
      | nil =>
        simp [h2, countNetGets, countExtracts, Effect.isNetGet, Effect.isExtract, hzip]
      | cons e es =>
        simp [h2, countNetGets, countExtracts, Effect.isNetGet, Effect.isExtract, hzip]
  · intro h hdl
    by_cases hzip : TranscribirMp3Vosk.VOSK_MODEL_ZIP ∈ w.fs.files
    · simp only [TranscribirMp3Vosk.ensure_vosk_model, if_neg h, if_pos hzip]
      by_cases hdir : TranscribirMp3Vosk.VOSK_MODEL_DIR ∈ (extractAllZip w
          TranscribirMp3Vosk.VOSK_MODEL_ZIP TranscribirMp3Vosk.MODELS_DIR).fs.dirs
      · simp [hdir, countNetGets, countExtracts, Effect.isNetGet, Effect.isExtract, hzip]
      · cases h2 : TranscribirMp3Vosk.voskFallbackDirs (extractAllZip w
            TranscribirMp3Vosk.VOSK_MODEL_ZIP TranscribirMp3Vosk.MODELS_DIR).fs with
        | nil =>
          simp [hdir, h2, countNetGets, countExtracts, Effect.isNetGet, Effect.isExtract, hzip]
        | cons d ds =>
          simp [hdir, h2, countNetGets, countExtracts, Effect.isNetGet, Effect.isExtract, hzip]
    · have hok : w.downloadOk TranscribirMp3Vosk.VOSK_URL = true := hdl.resolve_left hzip
      simp only [TranscribirMp3Vosk.ensure_vosk_model, if_neg h, if_neg hzip, download_file,
        if_pos hok]
      by_cases hdir : TranscribirMp3Vosk.VOSK_MODEL_DIR ∈ (extractAllZip
          { w with fs := { w.fs with files := TranscribirMp3Vosk.VOSK_MODEL_ZIP :: w.fs.files } }
          TranscribirMp3Vosk.VOSK_MODEL_ZIP TranscribirMp3Vosk.MODELS_DIR).fs.dirs
      · simp [hdir, countNetGets, countExtracts, Effect.isNetGet, Effect.isExtract, hzip]
      · cases h2 : TranscribirMp3Vosk.voskFallbackDirs (extractAllZip
            { w with fs := { w.fs with files := TranscribirMp3Vosk.VOSK_MODEL_ZIP :: w.fs.files } }
            TranscribirMp3Vosk.VOSK_MODEL_ZIP TranscribirMp3Vosk.MODELS_DIR).fs with
        | nil =>
          simp [hdir, h2, countNetGets, countExtracts, Effect.isNetGet, Effect.isExtract, hzip]
        | cons d ds =>
          simp [hdir, h2, countNetGets, countExtracts, Effect.isNetGet, Effect.isExtract, hzip]

/-- Witness for C3 at the empty world: nothing is provisioned, the
archives are absent, both extractions yield nothing, so both
provisioners download once, extract once and fail with the
missing-artifact errors. -/
theorem provisioner_cache_miss_one_download_witness :
    rglobName baseWorld.fs ConvertMp4ToMp3.FFMPEG_ROOT "ffmpeg.exe" = [] ∧
    baseWorld.downloadOk ConvertMp4ToMp3.FFMPEG_URL = true ∧
    countNetGets (ConvertMp4ToMp3.ensure_ffmpeg baseWorld).trace = 1 ∧
    countExtracts (ConvertMp4ToMp3.ensure_ffmpeg baseWorld).trace = 1 ∧
    (ConvertMp4ToMp3.ensure_ffmpeg baseWorld).res
        = Except.error (PyError.fileNotFound "No se pudo localizar ffmpeg.exe tras la extracción") ∧
    countNetGets (TranscribirMp3Vosk.ensure_vosk_model baseWorld).trace = 1 ∧
    countExtracts (TranscribirMp3Vosk.ensure_vosk_model baseWorld).trace = 1 ∧
    (TranscribirMp3Vosk.ensure_vosk_model baseWorld).res
        = Except.error
            (PyError.fileNotFound "No se encontro la carpeta del modelo Vosk tras la extraccion") := by
  have h := provisioner_cache_miss_one_download baseWorld
  have h1 := h.1 (by decide) (Or.inr (by decide))
  have h2 := h.2 (by decide) (Or.inr (by decide))
  refine ⟨by decide, by decide, ?_, h1.2.1, h1.2.2 (by decide), ?_, h2.2.1, h2.2.2 (by decide)⟩
  · have := h1.1
    simpa using this
  · have := h2.1
    simpa using this

/-- Claim C7: with a valid mono/16-bit/16000 Hz WAV, the transcriber's
result is exactly the spec-side description — sequential fixed-size
reads of 4000 frames, a segment appended at each recognizer boundary,
the final flushed text appended last, the non-empty stripped segments
joined with single spaces, the result stripped — and its trace shows
one 4000-frame read per chunk plus the final empty read. -/
theorem transcription_matches_spec (w : World) (wav_path model_dir : FPath) (wf : WavFile) :
    w.wavFiles wav_path = some wf →
    wf.nchannels = 1 → wf.sampwidth = 2 → wf.framerate = 16000 →
    (TranscribirMp3Vosk.transcribe_with_vosk w wav_path model_dir).res
        = Except.ok (specAssemble (specSegments w.recog wf.frames)) ∧
    (TranscribirMp3Vosk.transcribe_with_vosk w wav_path model_dir).trace.filter Effect.isRead
        = List.replicate ((chunksOf4000 wf.frames).length + 1) (Effect.readFrames 4000) := by
  intro hw h1 h2 h3
  have hfmt : ¬ (wf.nchannels ≠ 1 ∨ wf.sampwidth ≠ 2 ∨ wf.framerate ≠ 16000) := by
    simp [h1, h2, h3]
  have hm := voskLoop_foldl w.recog wf.frames.length wf.frames le_rfl w.recog.init []
  have hseg : specSegments w.recog wf.frames
      = (match w.recog.final (TranscribirMp3Vosk.voskLoop w.recog w.recog.init wf.frames).1 with
         | some t => (TranscribirMp3Vosk.voskLoop w.recog w.recog.init wf.frames).2.1 ++ [t]
         | none => (TranscribirMp3Vosk.voskLoop w.recog w.recog.init wf.frames).2.1) := by
    simp only [specSegments]
    rw [hm.1]
    simp
  constructor
  · simp only [TranscribirMp3Vosk.transcribe_with_vosk, hw, if_neg hfmt]
    rw [hseg, specAssemble, ← trim_filter_map]
  · simp only [TranscribirMp3Vosk.transcribe_with_vosk, hw, if_neg hfmt]
    simp only [List.filter_append, List.filter_cons, List.filter_nil, Effect.isRead]
    rw [hm.2]
    simp

/-- A recognizer that signals a boundary with text on every accepted
chunk and flushes a final text. -/
def chattyRec : RecBehavior :=
  { init := 0
    accept := fun s _ => (s + 1, some (some " hola "))
    final := fun _ => some " mundo " }

/-- A world holding a valid mono 16-bit 16000 Hz WAV of three frames,
transcribed by `chattyRec`. -/
def goodWavWorld : World :=
  { baseWorld with
    wavFiles := fun p =>
      if p = "g.wav" then
        some { nchannels := 1, sampwidth := 2, framerate := 16000, frames := [1, 2, 3] }
      else none
    recog := chattyRec }

theorem chunksOf4000_small : chunksOf4000 [1, 2, 3] = [[1, 2, 3]] := by
  rw [chunksOf4000_cons]
  rw [show ([1, 2, 3] : List Nat).take 4000 = [1, 2, 3] from by decide]
  rw [show ([1, 2, 3] : List Nat).drop 4000 = [] from by decide]
  rw [chunksOf4000]

/-- Witness for C7 at a concrete valid WAV: the spec-side value
evaluates to `"hola mundo"` and the transcriber returns it. -/
theorem transcription_matches_spec_witness :
    goodWavWorld.wavFiles "g.wav"
        = some { nchannels := 1, sampwidth := 2, framerate := 16000, frames := [1, 2, 3] } ∧
    (TranscribirMp3Vosk.transcribe_with_vosk goodWavWorld "g.wav" "m").res
        = Except.ok (specAssemble (specSegments goodWavWorld.recog [1, 2, 3])) ∧
    specAssemble (specSegments goodWavWorld.recog [1, 2, 3]) = "hola mundo" := by
  have h := transcription_matches_spec goodWavWorld "g.wav" "m"
    { nchannels := 1, sampwidth := 2, framerate := 16000, frames := [1, 2, 3] }
    (by simp [goodWavWorld]) rfl rfl rfl
  refine ⟨by simp [goodWavWorld], h.1, ?_⟩
  simp only [specSegments, chunksOf4000_small, List.foldl_cons, List.foldl_nil, specStep,
    goodWavWorld, chattyRec, baseWorld]
  decide

/-- Claim C8: the write stage of the transcription run produces the
transcript file as a fixed two-line header banner (followed by a blank
separator line) and then the joined transcript body with a final
newline; the file is written and the stage succeeds even when the
transcript is the empty string, in which case a warning is logged. -/
theorem transcript_file_two_line_header (w : World) (text : String) :
    (TranscribirMp3Vosk.finishTranscription w text).res = Except.ok () ∧
    Effect.writeFileEff TranscribirMp3Vosk.OUTPUT_FILE (TranscribirMp3Vosk.transcriptContent text)
        ∈ (TranscribirMp3Vosk.finishTranscription w text).trace ∧
    TranscribirMp3Vosk.OUTPUT_FILE ∈ (TranscribirMp3Vosk.finishTranscription w text).world.fs.files ∧
    TranscribirMp3Vosk.transcriptContent text
        = "TRANSCRIPCION (Vosk - Espanol)" ++ "\n" ++ "================================" ++ "\n"
            ++ "\n" ++ text ++ "\n" ∧
    (text = "" →
      Effect.log "Aviso: No se obtuvo texto. Verifique la claridad del audio."
        ∈ (TranscribirMp3Vosk.finishTranscription w text).trace) := by
  refine ⟨rfl, ?_, ?_, ?_, ?_⟩
  · by_cases ht : text = "" <;> simp [TranscribirMp3Vosk.finishTranscription, ht]
  · simp [TranscribirMp3Vosk.finishTranscription, writeFileW]
  · have hh : ("TRANSCRIPCION (Vosk - Espanol)\n" ++ "================================\n\n" : String)
        = "TRANSCRIPCION (Vosk - Espanol)" ++ "\n" ++ "================================" ++ "\n"
            ++ "\n" := by decide
    simp only [TranscribirMp3Vosk.transcriptContent]
    rw [hh]
  · intro ht
    simp [TranscribirMp3Vosk.finishTranscription, ht]

/-- Witness for C8 at the empty transcript: the file is still written,
with the warning logged. -/
theorem transcript_file_two_line_header_witness :
    ("" : String) = "" ∧
    Effect.writeFileEff TranscribirMp3Vosk.OUTPUT_FILE (TranscribirMp3Vosk.transcriptContent "")
        ∈ (TranscribirMp3Vosk.finishTranscription baseWorld "").trace ∧
    Effect.log "Aviso: No se obtuvo texto. Verifique la claridad del audio."
        ∈ (TranscribirMp3Vosk.finishTranscription baseWorld "").trace := by
  have h := transcript_file_two_line_header baseWorld ""
  exact ⟨rfl, h.2.1, h.2.2.2.2 rfl⟩
